import Mathlib

/-!
Verification of the IPL dashboard aggregation pipeline (`src/app.py`)
against its natural-language specification.

The two data tables are embedded as lists of records; every dataframe
operation of the source (filter, groupby-sum, value_counts, sort, head)
is embedded as an executable Lean function on those lists.
-/

set_option maxHeartbeats 1000000

namespace IPL

/-- A row of `matches.csv` (columns used by `app.py`).  Nullable columns
(pandas NaN) are `Option`; `result_margin` is a pandas float, embedded as
`Option ℚ` with `none` for NaN. -/
structure Match where
  id : Nat
  season : Nat
  city : Option String
  venue : String
  date : String
  team1 : Option String
  team2 : Option String
  winner : Option String
  result : Option String
  result_margin : Option ℚ
  player_of_match : Option String
deriving DecidableEq, Repr

/-- A row of `deliveries.csv` (columns used by `app.py`). -/
structure Delivery where
  match_id : Nat
  batter : String
  bowler : String
  batsman_runs : Nat
  total_runs : Nat
  dismissal_kind : Option String
  player_dismissed : Option String
deriving DecidableEq, Repr

/-! ### Filter engine (`app.py` lines 25-36) -/

/-- `season_matches = matches_df[matches_df["season"] == selected_season]`. -/
def season_matches (ms : List Match) (s : Nat) : List Match :=
  ms.filter (fun m => m.season = s)

/-- `season_deliveries = deliveries_df[deliveries_df["match_id"].isin(season_match_ids)]`
where `season_match_ids = season_matches["id"].unique()`. -/
def season_deliveries (ms : List Match) (ds : List Delivery) (s : Nat) : List Delivery :=
  ds.filter (fun d => (season_matches ms s).any (fun m => m.id = d.match_id))

/-- `teams = sorted(matches_df["team1"].dropna().unique())` (line 34):
the team selection domain is built from the `team1` column only. -/
def teams (ms : List Match) : List String :=
  List.insertionSort (fun a b : String => a ≤ b) (ms.filterMap Match.team1).dedup

/-! ### Generic dataframe primitives -/

/-- Number of occurrences of `k` in `l` (one column's worth of rows). -/
def countKey [DecidableEq α] (l : List α) (k : α) : Nat :=
  (l.filter (fun x => x = k)).length

/-- Descending order on the aggregate value, as used by
`sort_values(ascending=False)` and by `value_counts()`. -/
def descVal (a b : String × Nat) : Prop := b.2 ≤ a.2

instance : DecidableRel descVal := fun a b => inferInstanceAs (Decidable (b.2 ≤ a.2))

instance : IsTotal (String × Nat) descVal :=
  ⟨fun a b => (Nat.le_total b.2 a.2).imp id id⟩

instance : IsTrans (String × Nat) descVal :=
  ⟨fun _ _ _ h1 h2 => Nat.le_trans h2 h1⟩

/-- `series.value_counts()`: occurrence count per distinct value, sorted
descending by count (pandas drops NaN before this; callers below pass
already-denulled columns). -/
def value_counts (l : List String) : List (String × Nat) :=
  List.insertionSort descVal (l.dedup.map (fun k => (k, countKey l k)))

/-- `groupby(key)[val].sum().sort_values(ascending=False)`: sum of the
value column per distinct key, sorted descending by the sum. -/
def groupSumDesc (l : List (String × Nat)) : List (String × Nat) :=
  List.insertionSort descVal
    ((l.map Prod.fst).dedup.map
      (fun k => (k, ((l.filter (fun p => p.1 = k)).map Prod.snd).sum)))

/-! ### Top performers (`app.py` lines 52-70, 136-151) -/

/-- Line 52/136: `season_deliveries.groupby("batter")["batsman_runs"].sum()
.sort_values(ascending=False).head(n)`. -/
def top_batsmen (sd : List Delivery) (n : Nat) : List (String × Nat) :=
  (groupSumDesc (sd.map (fun d => (d.batter, d.batsman_runs)))).take n

/-- Lines 58-59: deliveries with non-null `dismissal_kind` whose kind is not
one of `{run out, retired hurt, obstructing the field}`. -/
def wickets_df (sd : List Delivery) : List Delivery :=
  ((sd.filter (fun d => d.dismissal_kind.isSome)).filter
    (fun d => ¬ (d.dismissal_kind ∈
      [some "run out", some "retired hurt", some "obstructing the field"])))

/-- Line 60/145: `wickets_df["bowler"].value_counts().head(n)`. -/
def top_bowlers (sd : List Delivery) (n : Nat) : List (String × Nat) :=
  (value_counts ((wickets_df sd).map Delivery.bowler)).take n

/-- Line 66: `season_matches["player_of_match"].value_counts().head(5)`
(value_counts drops NaN). -/
def top_mom (sm : List Match) (n : Nat) : List (String × Nat) :=
  (value_counts (sm.filterMap Match.player_of_match)).take n

/-- Line 140: `season_deliveries[season_deliveries["batsman_runs"] == 6]
["batter"].value_counts().head(10)`. -/
def most_sixes (sd : List Delivery) (n : Nat) : List (String × Nat) :=
  (value_counts ((sd.filter (fun d => d.batsman_runs = 6)).map Delivery.batter)).take n

/-- Lines 149-150: `season_deliveries[season_deliveries["total_runs"] == 0]
["bowler"].value_counts().head(10)`. -/
def dot_bowlers (sd : List Delivery) (n : Nat) : List (String × Nat) :=
  (value_counts ((sd.filter (fun d => d.total_runs = 0)).map Delivery.bowler)).take n

/-- A ranked aggregation result is well-formed for limit `n`: at most `n`
entries, sorted non-increasing by the aggregate value. -/
def rankedOk (n : Nat) (l : List (String × Nat)) : Prop :=
  l.length ≤ n ∧ List.Sorted (fun a b : Nat => b ≤ a) (l.map Prod.snd)

/-! ### Player-vs-player (`app.py` lines 74-91) -/

/-- Python's `round` (round half to even) applied to the exact quotient
`N / D` of two naturals, `D > 0`: the fractional part is `(N % D) / D`,
compared with `1/2` by cross-multiplication. -/
def natRoundHalfEven (N D : Nat) : Nat :=
  if 2 * (N % D) < D then N / D
  else if D < 2 * (N % D) then N / D + 1
  else if 2 ∣ N / D then N / D else N / D + 1

/-- Line 83, executable form: `round((runs / balls) * 100, 2)` on the exact
rational `runs / balls`; the two-decimal result is the integer
`round(runs * 10000 / balls)` over 100. -/
def strike_rate (runs balls : Nat) : ℚ :=
  if balls > 0 then mkRat (natRoundHalfEven (runs * 10000) balls) 100 else 0

/-- Python's `round` on a rational: round half to even. -/
def pyRound (q : ℚ) : ℤ :=
  if q - ⌊q⌋ < 1/2 then ⌊q⌋
  else if (1:ℚ)/2 < q - ⌊q⌋ then ⌊q⌋ + 1
  else if 2 ∣ ⌊q⌋ then ⌊q⌋ else ⌊q⌋ + 1

/-- `round(x, 2)` on a rational. -/
def pyRound2 (q : ℚ) : ℚ := (pyRound (q * 100) : ℚ) / 100

/-- Line 83 as written in the source:
`round((runs / balls) * 100, 2) if balls > 0 else 0`. -/
def strike_rate_formula (runs balls : Nat) : ℚ :=
  if balls > 0 then pyRound2 ((runs : ℚ) / (balls : ℚ) * 100) else 0

/-- Lines 74-75: season deliveries further filtered to the selected
batter and bowler. -/
def pvp_df (sd : List Delivery) (bat bow : String) : List Delivery :=
  sd.filter (fun d => d.batter = bat ∧ d.bowler = bow)

/-- The player-vs-player metrics displayed on lines 86-91. -/
structure PvP where
  runs : Nat
  balls : Nat
  dismissals : Nat
  sr : ℚ
  fours : Nat
  sixes : Nat
deriving DecidableEq, Repr

/-- Lines 77-91: if the matchup is empty a warning state (`none`) is
surfaced; otherwise the metrics are computed.  `fours`/`sixes` embed
`pvp_df[pvp_df["batsman_runs"].isin([4, 6])]["batsman_runs"].value_counts()`
followed by `.get(4, 0)` / `.get(6, 0)`. -/
def pvpStats (sd : List Delivery) (bat bow : String) : Option PvP :=
  let df := pvp_df sd bat bow
  if df.isEmpty then none
  else
    let runs := (df.map Delivery.batsman_runs).sum
    let balls := df.length
    let boundaries := df.filter (fun d => d.batsman_runs ∈ [4, 6])
    some
      { runs := runs
        balls := balls
        dismissals := (df.filter (fun d => d.player_dismissed = some bat)).length
        sr := strike_rate runs balls
        fours := countKey (boundaries.map Delivery.batsman_runs) 4
        sixes := countKey (boundaries.map Delivery.batsman_runs) 6 }

/-- The full player-vs-player pipeline: season filter (sidebar) followed by
the matchup statistics. -/
def pvp (ms : List Match) (ds : List Delivery) (s : Nat) (bat bow : String) :
    Option PvP :=
  pvpStats (season_deliveries ms ds s) bat bow

/-! ### Head-to-head (`app.py` lines 95-113) -/

/-- Lines 96-97: rows of the FULL match table whose `{team1, team2}` pair
equals `{a, b}` in either order (NaN team columns compare unequal to any
string, exactly as in pandas). -/
def h2h_df (ms : List Match) (a b : String) : List Match :=
  ms.filter (fun m =>
    (m.team1 = some a ∧ m.team2 = some b) ∨ (m.team1 = some b ∧ m.team2 = some a))

/-- The head-to-head record of lines 98-101.  `ties` is Python integer
arithmetic `total - t1_wins - t2_wins`, so it is embedded as `ℤ`. -/
structure H2H where
  total : Nat
  t1_wins : Nat
  t2_wins : Nat
  ties : ℤ
deriving DecidableEq, Repr

/-- Lines 95-113: when the two selected teams are equal the computation is
skipped and a warning state (`none`) is surfaced; otherwise the record is
computed from the full match table. -/
def headToHead (ms : List Match) (a b : String) : Option H2H :=
  if a = b then none
  else
    let df := h2h_df ms a b
    let total := df.length
    let t1 := (df.filter (fun m => m.winner = some a)).length
    let t2 := (df.filter (fun m => m.winner = some b)).length
    some ⟨total, t1, t2, (total : ℤ) - t1 - t2⟩

/-! ### Thriller of the season (`app.py` lines 117-128) -/

/-- The pandas sort key for `result_margin`: NaN (`none`) sorts last, which
is exactly the `WithTop ℚ` order. -/
def marginKey (m : Match) : WithTop ℚ := m.result_margin

/-- Comparison used by `sort_values(by="result_margin")`. -/
def marginLE (m1 m2 : Match) : Prop := marginKey m1 ≤ marginKey m2

instance : DecidableRel marginLE := fun m1 m2 =>
  inferInstanceAs (Decidable (marginKey m1 ≤ marginKey m2))

instance : IsTotal Match marginLE := ⟨fun a b => le_total (marginKey a) (marginKey b)⟩

instance : IsTrans Match marginLE := ⟨fun _ _ _ h1 h2 => le_trans h1 h2⟩

/-- Line 117: `season_matches[season_matches["result"] == "normal"]
.sort_values(by="result_margin")`. -/
def thrillers (sm : List Match) : List Match :=
  List.insertionSort marginLE (sm.filter (fun m => m.result = some "normal"))

/-- Lines 118-128: `thrillers.iloc[0]` when nonempty, otherwise the
"no close match found" state (`none`). -/
def thriller (sm : List Match) : Option Match :=
  (thrillers sm).head?

/-! ### Concrete sample data -/

/-- A sample match row with the fields the claims exercise. -/
def mkMatch (i s : Nat) (t1 t2 w : String) (margin : ℚ) : Match :=
  ⟨i, s, some "City", "Venue", "2020-01-01", some t1, some t2, some w,
    some "normal", some margin, some w⟩

/-- A sample delivery row: batter `bat` facing bowler `bow`, scoring `r`. -/
def mkDelivery (i : Nat) (bat bow : String) (r : Nat) : Delivery :=
  ⟨i, bat, bow, r, r, none, none⟩

/-- A delivery on which `bat` was run out (not credited to the bowler). -/
def runOutDelivery : Delivery :=
  ⟨1, "A", "B", 1, 1, some "run out", some "A"⟩

/-- One match, played in season 2008 between teams A and B. -/
def c1Matches : List Match := [mkMatch 1 2008 "A" "B" "A" 10]

/-- One match whose `team2` value ("Y") never occurs in the `team1` column. -/
def c9Matches : List Match := [mkMatch 1 2008 "X" "Y" "X" 10]

/-- Season 2020 matches with result "normal" and margins `[5, 2, 9]`. -/
def c7Matches : List Match :=
  [mkMatch 1 2020 "A" "B" "A" 5, mkMatch 2 2020 "C" "D" "C" 2,
   mkMatch 3 2020 "E" "F" "E" 9]

/-- A single season-2020 match for the player-vs-player scenario. -/
def c6Matches : List Match := [mkMatch 1 2020 "T" "U" "T" 3]

/-- The scenario deliveries `[(A,B,runs=1),(A,B,runs=4)]`. -/
def c6Deliveries : List Delivery := [mkDelivery 1 "A" "B" 1, mkDelivery 1 "A" "B" 4]

/-! ### Helper lemmas -/

/-- Two disjoint filters of the same list together keep at most the whole
list. -/
lemma length_filter_add_length_filter_le {α : Type} (l : List α) (p q : α → Bool)
    (hpq : ∀ x, ¬(p x = true ∧ q x = true)) :
    (l.filter p).length + (l.filter q).length ≤ l.length := by
  induction l with
  | nil => simp
  | cons x l ih =>
    by_cases hp : p x <;> by_cases hq : q x
    · exact absurd ⟨hp, hq⟩ (hpq x)
    all_goals (simp [List.filter_cons, hp, hq]; omega)

/-- `headToHead` on distinct teams, unfolded. -/
lemma headToHead_of_ne (ms : List Match) (a b : String) (hab : a ≠ b) :
    headToHead ms a b =
      some ⟨(h2h_df ms a b).length,
        ((h2h_df ms a b).filter (fun m => m.winner = some a)).length,
        ((h2h_df ms a b).filter (fun m => m.winner = some b)).length,
        ((h2h_df ms a b).length : ℤ)
          - ((h2h_df ms a b).filter (fun m => m.winner = some a)).length
          - ((h2h_df ms a b).filter (fun m => m.winner = some b)).length⟩ := by
  simp [headToHead, hab]

/-! ### Head-to-head claims -/

/-- **C3.** For every match table and distinct teams `a`, `b`, the
head-to-head computation selects exactly the Match rows whose
`{team1, team2}` equals `{a, b}` in either order, and the reported values
satisfy `t1_wins + t2_wins + ties = total` where `total` is the row count
of that selection. -/
theorem h2h_selection_and_sum (ms : List Match) (a b : String) (hab : a ≠ b) :
    ∃ r, headToHead ms a b = some r ∧
      (∀ m, m ∈ h2h_df ms a b ↔ m ∈ ms ∧
        ((m.team1 = some a ∧ m.team2 = some b) ∨
         (m.team1 = some b ∧ m.team2 = some a))) ∧
      r.total = (h2h_df ms a b).length ∧
      (r.t1_wins : ℤ) + r.t2_wins + r.ties = r.total := by
  refine ⟨_, headToHead_of_ne ms a b hab, ?_, rfl, by push_cast; ring⟩
  intro m
  simp [h2h_df, List.mem_filter]

/-- Witness for **C3** at a concrete table and team pair. -/
theorem h2h_selection_and_sum_witness :
    ("A" : String) ≠ "B" ∧
    ∃ r, headToHead c1Matches "A" "B" = some r ∧
      (∀ m, m ∈ h2h_df c1Matches "A" "B" ↔ m ∈ c1Matches ∧
        ((m.team1 = some "A" ∧ m.team2 = some "B") ∨
         (m.team1 = some "B" ∧ m.team2 = some "A"))) ∧
      r.total = (h2h_df c1Matches "A" "B").length ∧
      (r.t1_wins : ℤ) + r.t2_wins + r.ties = r.total :=
  ⟨by decide, h2h_selection_and_sum c1Matches "A" "B" (by decide)⟩

/-- **C4.** If the two selected teams are equal, the head-to-head
computation is skipped entirely and a warning state (`none`) is surfaced
instead: no totals, win counts or chart values are produced. -/
theorem h2h_same_team_skipped (ms : List Match) (t : String) :
    headToHead ms t t = none := by
  simp [headToHead]

/-- **C10.** For distinct teams, each selected match's winner is counted
toward at most one of the two teams, so `t1_wins + t2_wins ≤ total` and
`ties = total - t1_wins - t2_wins` is never negative. -/
theorem h2h_wins_le_total (ms : List Match) (a b : String) (hab : a ≠ b)
    (r : H2H) (hr : headToHead ms a b = some r) :
    r.t1_wins + r.t2_wins ≤ r.total ∧ 0 ≤ r.ties := by
  rw [headToHead_of_ne ms a b hab] at hr
  obtain rfl : r = _ := (Option.some_injective _ hr).symm
  have hle : ((h2h_df ms a b).filter (fun m => m.winner = some a)).length +
      ((h2h_df ms a b).filter (fun m => m.winner = some b)).length ≤
      (h2h_df ms a b).length := by
    refine length_filter_add_length_filter_le _ _ _ (fun m => ?_)
    rintro ⟨ha, hb⟩
    simp only [decide_eq_true_eq] at ha hb
    exact hab (Option.some_injective _ (ha ▸ hb))
  constructor
  · exact hle
  · simp only [H2H.ties]
    omega

/-- Witness for **C10** at a concrete table and team pair. -/
theorem h2h_wins_le_total_witness :
    ("A" : String) ≠ "B" ∧
    headToHead c1Matches "A" "B" = some ⟨1, 1, 0, 0⟩ ∧
    (1 + 0 ≤ 1 ∧ (0:ℤ) ≤ 0) :=
  ⟨by decide, by decide,
    h2h_wins_le_total c1Matches "A" "B" (by decide) ⟨1, 1, 0, 0⟩ (by decide)⟩

/-- **C1 counterexample.** With a match table whose only row is a
season-2008 match between A and B and with season 2020 selected, the
season-2020 match subset is empty, yet the head-to-head total is 1: a
match from a different season contributed. -/
theorem h2h_season_counterexample :
    season_matches c1Matches 2020 = [] ∧
    (headToHead c1Matches "A" "B").map H2H.total = some 1 ∧
    (headToHead (season_matches c1Matches 2020) "A" "B").map H2H.total = some 0 := by
  refine ⟨by decide, by decide, by decide⟩

/-- **C1 amended.** The head-to-head aggregate is computed from the full,
unfiltered match table: its total counts every row whose team pair is
`{a, b}`, and a qualifying row contributes even when its season differs
from the selected season. -/
theorem h2h_aggregates_full_table (ms : List Match) (s : Nat) (a b : String)
    (hab : a ≠ b) :
    ∃ r, headToHead ms a b = some r ∧
      r.total = (ms.filter (fun m =>
        (m.team1 = some a ∧ m.team2 = some b) ∨
        (m.team1 = some b ∧ m.team2 = some a))).length ∧
      ∀ m ∈ ms, m.season ≠ s →
        ((m.team1 = some a ∧ m.team2 = some b) ∨
         (m.team1 = some b ∧ m.team2 = some a)) →
        m ∈ h2h_df ms a b := by
  refine ⟨_, headToHead_of_ne ms a b hab, rfl, ?_⟩
  intro m hm _ hpair
  simp [h2h_df, List.mem_filter, hm, hpair]

/-- Witness for **C1 amended**: the season-2008 match contributes although
season 2020 is selected. -/
theorem h2h_aggregates_full_table_witness :
    ("A" : String) ≠ "B" ∧
    ∃ r, headToHead c1Matches "A" "B" = some r ∧
      r.total = (c1Matches.filter (fun m =>
        (m.team1 = some "A" ∧ m.team2 = some "B") ∨
        (m.team1 = some "B" ∧ m.team2 = some "A"))).length ∧
      ∀ m ∈ c1Matches, m.season ≠ 2020 →
        ((m.team1 = some "A" ∧ m.team2 = some "B") ∨
         (m.team1 = some "B" ∧ m.team2 = some "A")) →
        m ∈ h2h_df c1Matches "A" "B" :=
  ⟨by decide, h2h_aggregates_full_table c1Matches 2020 "A" "B" (by decide)⟩

/-! ### Team selection domain claim -/

/-- **C9 counterexample.** In a table whose only match is X vs Y, team "Y"
participates in a match but is absent from the team selection list, which
is built from the `team1` column alone. -/
theorem teams_counterexample :
    c9Matches.any (fun m => m.team2 = some "Y") = true ∧
    "Y" ∉ teams c9Matches := by
  refine ⟨by decide, by decide⟩

/-- **C9 amended.** The team selection domain is the sorted list of the
distinct non-null values of the `team1` column of the full (unfiltered)
match table: every team that appears as `team1` in some match appears
exactly once, but a team appearing only as `team2` may be absent. -/
theorem teams_sorted_distinct_team1 (ms : List Match) :
    List.Sorted (fun a b : String => a ≤ b) (teams ms) ∧
    (teams ms).Nodup ∧
    ∀ t, t ∈ teams ms ↔ some t ∈ ms.map Match.team1 := by
  refine ⟨List.sorted_insertionSort _ _, ?_, ?_⟩
  · show (List.insertionSort _ (ms.filterMap Match.team1).dedup).Nodup
    exact ((List.perm_insertionSort _ _).nodup_iff).mpr (List.nodup_dedup _)
  · intro t
    show t ∈ List.insertionSort _ (ms.filterMap Match.team1).dedup ↔ _
    rw [(List.perm_insertionSort _ _).mem_iff, List.mem_dedup]
    simp [List.mem_filterMap, List.mem_map, eq_comm]

/-! ### Thriller claim -/

/-- **C7.** Among the season's Match rows with result "normal", the
thriller selection returns a match whose `result_margin` is minimal over
that set (under the pandas sort order, where a missing margin sorts
last); if no such rows exist, the "no close match found" state (`none`)
is reported instead of an error. -/
theorem thriller_is_minimal (sm : List Match) :
    (sm.filter (fun m => m.result = some "normal") = [] → thriller sm = none) ∧
    ∀ t, thriller sm = some t →
      t ∈ sm.filter (fun m => m.result = some "normal") ∧
      ∀ m ∈ sm.filter (fun m => m.result = some "normal"),
        marginKey t ≤ marginKey m := by
  constructor
  · intro h
    simp [thriller, thrillers, h]
  · intro t ht
    have hs : List.Sorted marginLE (thrillers sm) := List.sorted_insertionSort _ _
    have hp : List.Perm (thrillers sm) (sm.filter (fun m => m.result = some "normal")) :=
      List.perm_insertionSort _ _
    rw [thriller] at ht
    cases hL : thrillers sm with
    | nil => rw [hL] at ht; exact absurd ht (by simp)
    | cons x xs =>
      rw [hL] at ht hs hp
      obtain rfl : x = t := by simpa using ht
      refine ⟨hp.mem_iff.mp (List.mem_cons_self _ _), ?_⟩
      intro m hm
      rcases List.mem_cons.mp (hp.mem_iff.mpr hm) with h1 | h2
      · rw [h1]
      · exact List.rel_of_sorted_cons hs m h2

/-- Witness for **C7**: among normal-result matches with margins
`[5, 2, 9]`, the match with margin 2 is selected and is minimal. -/
theorem thriller_is_minimal_witness :
    thriller c7Matches = some (mkMatch 2 2020 "C" "D" "C" 2) ∧
    (mkMatch 2 2020 "C" "D" "C" 2) ∈
      c7Matches.filter (fun m => m.result = some "normal") ∧
    ∀ m ∈ c7Matches.filter (fun m => m.result = some "normal"),
      marginKey (mkMatch 2 2020 "C" "D" "C" 2) ≤ marginKey m :=
  ⟨by decide, (thriller_is_minimal c7Matches).2 _ (by decide)⟩

/-! ### Wicket-count claim -/

/-- Counting one key in a mapped column equals filtering the rows on that
key. -/
lemma countKey_map {α β : Type} [DecidableEq β] (f : α → β) (l : List α) (k : β) :
    countKey (l.map f) k = (l.filter (fun x => f x = k)).length := by
  induction l with
  | nil => rfl
  | cons x l ih =>
    by_cases h : f x = k <;>
      simp [countKey, List.filter_cons, h, ← ih]

/-- The wicket table is the season deliveries filtered on a single
bowler-creditable-dismissal predicate. -/
lemma wickets_df_eq_filter (sd : List Delivery) :
    wickets_df sd = sd.filter (fun d => d.dismissal_kind.isSome ∧
      d.dismissal_kind ≠ some "run out" ∧
      d.dismissal_kind ≠ some "retired hurt" ∧
      d.dismissal_kind ≠ some "obstructing the field") := by
  induction sd with
  | nil => rfl
  | cons d sd ih =>
    by_cases h1 : d.dismissal_kind.isSome
    · by_cases h2 : d.dismissal_kind = some "run out"
      · simp [wickets_df, List.filter_cons, h1, h2] at ih ⊢; exact ih
      · by_cases h3 : d.dismissal_kind = some "retired hurt"
        · simp [wickets_df, List.filter_cons, h1, h2, h3] at ih ⊢; exact ih
        · by_cases h4 : d.dismissal_kind = some "obstructing the field"
          · simp [wickets_df, List.filter_cons, h1, h2, h3, h4] at ih ⊢; exact ih
          · simp [wickets_df, List.filter_cons, h1, h2, h3, h4] at ih ⊢; exact ih
    · simp [wickets_df, List.filter_cons, h1] at ih ⊢; exact ih

/-- **C2.** Per bowler, the wicket count is exactly the number of season
deliveries with a non-null `dismissal_kind` outside
`{run out, retired hurt, obstructing the field}` credited to that bowler;
in particular a delivery with `dismissal_kind = "run out"` is excluded
from the wicket table, so it never increments any bowler's count. -/
theorem wicket_count_spec (sd : List Delivery) (p : String) :
    countKey ((wickets_df sd).map Delivery.bowler) p =
      (sd.filter (fun d => d.bowler = p ∧ d.dismissal_kind.isSome ∧
        d.dismissal_kind ≠ some "run out" ∧
        d.dismissal_kind ≠ some "retired hurt" ∧
        d.dismissal_kind ≠ some "obstructing the field")).length ∧
    ∀ d ∈ sd, d.dismissal_kind = some "run out" → d ∉ wickets_df sd := by
  constructor
  · rw [countKey_map, wickets_df_eq_filter]
    induction sd with
    | nil => rfl
    | cons d sd ih =>
      by_cases hb : d.bowler = p <;>
        by_cases h1 : d.dismissal_kind.isSome ∧
          d.dismissal_kind ≠ some "run out" ∧
          d.dismissal_kind ≠ some "retired hurt" ∧
          d.dismissal_kind ≠ some "obstructing the field" <;>
        simp [List.filter_cons, hb, h1, ih]
  · intro d _ hro
    rw [wickets_df_eq_filter, List.mem_filter]
    rintro ⟨-, hpred⟩
    simp [hro] at hpred

/-- Witness for **C2**: a lone run-out delivery gives bowler "B" zero
wickets, and the run-out delivery is not in the wicket table. -/
theorem wicket_count_spec_witness :
    countKey ((wickets_df [runOutDelivery]).map Delivery.bowler) "B" = 0 ∧
    runOutDelivery ∈ [runOutDelivery] ∧
    runOutDelivery.dismissal_kind = some "run out" ∧
    runOutDelivery ∉ wickets_df [runOutDelivery] :=
  ⟨by decide, by decide, by decide,
    (wicket_count_spec [runOutDelivery] "B").2 runOutDelivery (by decide) (by decide)⟩

/-! ### Top-N claim -/

/-- Taking `n` entries of a descending-sorted list is a well-formed
ranked result. -/
lemma rankedOk_take_sortDesc (l : List (String × Nat)) (n : Nat) :
    rankedOk n ((List.insertionSort descVal l).take n) := by
  constructor
  · rw [List.length_take]
    exact min_le_left _ _
  · have hs : List.Pairwise descVal (List.insertionSort descVal l) :=
      List.sorted_insertionSort _ _
    have hsub : List.Sublist ((List.insertionSort descVal l).take n)
        (List.insertionSort descVal l) := List.take_sublist _ _
    exact (List.pairwise_map).mpr (hs.sublist hsub)

/-- **C8.** Every top-N aggregation — top run scorers, top wicket takers,
player-of-match awards, six hitters, dot-ball specialists — returns at
most `n` entries, sorted non-increasing by the aggregate value. -/
theorem topN_aggregations_ranked (sd : List Delivery) (sm : List Match) (n : Nat) :
    rankedOk n (top_batsmen sd n) ∧ rankedOk n (top_bowlers sd n) ∧
    rankedOk n (top_mom sm n) ∧ rankedOk n (most_sixes sd n) ∧
    rankedOk n (dot_bowlers sd n) :=
  ⟨rankedOk_take_sortDesc _ _, rankedOk_take_sortDesc _ _,
   rankedOk_take_sortDesc _ _, rankedOk_take_sortDesc _ _,
   rankedOk_take_sortDesc _ _⟩

/-! ### Strike-rate claim -/

/-- Floor of an exact natural quotient in `ℚ` is natural division. -/
lemma floor_natCast_div (N D : Nat) :
    ⌊(N:ℚ)/(D:ℚ)⌋ = ((N / D : Nat) : ℤ) := by
  rw [Rat.floor_natCast_div_natCast]
  exact (Int.ofNat_tdiv N D).symm

/-- Fractional part of an exact natural quotient in `ℚ`. -/
lemma frac_natCast_div (N D : Nat) (hD : 0 < D) :
    (N:ℚ)/(D:ℚ) - ((N / D : Nat) : ℚ) = ((N % D : Nat) : ℚ) / (D:ℚ) := by
  have hD' : (D:ℚ) ≠ 0 := Nat.cast_ne_zero.mpr hD.ne'
  have key : (N:ℚ) = (D:ℚ) * ((N / D : Nat):ℚ) + ((N % D : Nat):ℚ) := by
    exact_mod_cast (Nat.div_add_mod N D).symm
  field_simp
  linarith [key]

/-- Cross-multiplied form of `r/D < 1/2`. -/
lemma div_lt_half_iff (r D : Nat) (hD : 0 < D) :
    ((r:ℚ)/(D:ℚ) < 1/2) ↔ 2 * r < D := by
  have hD' : (0:ℚ) < D := by exact_mod_cast hD
  rw [div_lt_div_iff₀ hD' (by norm_num : (0:ℚ) < 2), one_mul]
  norm_cast
  omega

/-- Cross-multiplied form of `1/2 < r/D`. -/
lemma half_lt_div_iff (r D : Nat) (hD : 0 < D) :
    ((1:ℚ)/2 < (r:ℚ)/(D:ℚ)) ↔ D < 2 * r := by
  have hD' : (0:ℚ) < D := by exact_mod_cast hD
  rw [div_lt_div_iff₀ (by norm_num : (0:ℚ) < 2) hD', one_mul]
  norm_cast
  omega

/-- Python's rounding of an exact natural quotient agrees with the
integer computation `natRoundHalfEven`. -/
lemma pyRound_natCast_div (N D : Nat) (hD : 0 < D) :
    pyRound ((N:ℚ)/(D:ℚ)) = ((natRoundHalfEven N D : Nat) : ℤ) := by
  have hfl := floor_natCast_div N D
  have hfrac : (N:ℚ)/(D:ℚ) - (⌊(N:ℚ)/(D:ℚ)⌋ : ℚ) = ((N % D : Nat):ℚ)/(D:ℚ) := by
    rw [hfl]
    push_cast
    exact_mod_cast frac_natCast_div N D hD
  have e1 : ((N:ℚ)/(D:ℚ) - (⌊(N:ℚ)/(D:ℚ)⌋:ℚ) < 1/2) ↔ 2 * (N % D) < D := by
    rw [hfrac]; exact div_lt_half_iff _ _ hD
  have e2 : ((1:ℚ)/2 < (N:ℚ)/(D:ℚ) - (⌊(N:ℚ)/(D:ℚ)⌋:ℚ)) ↔ D < 2 * (N % D) := by
    rw [hfrac]; exact half_lt_div_iff _ _ hD
  have e3 : (2 ∣ ⌊(N:ℚ)/(D:ℚ)⌋) ↔ 2 ∣ N / D := by
    rw [hfl]
    exact_mod_cast Iff.rfl
  unfold pyRound natRoundHalfEven
  by_cases h1 : 2 * (N % D) < D
  · rw [if_pos (e1.mpr h1), if_pos h1, hfl]
  · rw [if_neg (fun hc => h1 (e1.mp hc)), if_neg h1]
    by_cases h2 : D < 2 * (N % D)
    · rw [if_pos (e2.mpr h2), if_pos h2, hfl]
      push_cast
      ring
    · rw [if_neg (fun hc => h2 (e2.mp hc)), if_neg h2]
      by_cases h3 : 2 ∣ N / D
      · rw [if_pos (e3.mpr h3), if_pos h3, hfl]
      · rw [if_neg (fun hc => h3 (e3.mp hc)), if_neg h3, hfl]
        push_cast
        ring

/-- The executable strike rate agrees with line 83 as written. -/
lemma strike_rate_eq_formula (runs balls : Nat) :
    strike_rate runs balls = strike_rate_formula runs balls := by
  unfold strike_rate strike_rate_formula
  by_cases hb : balls > 0
  · rw [if_pos hb, if_pos hb]
    unfold pyRound2
    have hb' : (balls:ℚ) ≠ 0 := Nat.cast_ne_zero.mpr hb.ne'
    have hq : (runs:ℚ) / (balls:ℚ) * 100 * 100 = ((runs * 10000 : Nat):ℚ) / (balls:ℚ) := by
      push_cast
      field_simp
      ring
    rw [hq, pyRound_natCast_div _ _ hb, Rat.mkRat_eq_div]
    push_cast
    ring
  · rw [if_neg hb, if_neg hb]

/-- **C5.** The player-vs-player strike rate equals
`round(runs/balls*100, 2)` whenever `balls > 0` and equals `0` when
`balls = 0`, so the division is never performed with a zero divisor;
`balls = 4`, `runs = 6` yields `150.0`. -/
theorem strike_rate_guarded (runs balls : Nat) :
    strike_rate runs 0 = 0 ∧
    (0 < balls → strike_rate runs balls = pyRound2 ((runs:ℚ) / (balls:ℚ) * 100)) ∧
    strike_rate 6 4 = 150 := by
  refine ⟨rfl, ?_, by decide⟩
  intro hb
  rw [strike_rate_eq_formula]
  unfold strike_rate_formula
  rw [if_pos hb]

/-- Witness for **C5** at `runs = 6`, `balls = 4`. -/
theorem strike_rate_guarded_witness :
    0 < 4 ∧
    strike_rate 6 4 = pyRound2 (((6:Nat):ℚ) / ((4:Nat):ℚ) * 100) ∧
    strike_rate 9 0 = 0 :=
  ⟨by decide, (strike_rate_guarded 6 4).2.1 (by decide), (strike_rate_guarded 9 0).1⟩

/-! ### Player-vs-player claim -/

/-- Re-filtering on a stronger predicate collapses the first filter. -/
lemma filter_filter_of_imp {α : Type} (l : List α) (p q : α → Bool)
    (h : ∀ x, q x = true → p x = true) :
    (l.filter p).filter q = l.filter q := by
  induction l with
  | nil => rfl
  | cons x l ih =>
    by_cases hq : q x
    · have hp := h x hq
      simp [List.filter_cons, hp, hq, ih]
    · by_cases hp : p x <;> simp [List.filter_cons, hp, hq, ih]

/-- **C6.** The player-vs-player statistics are computed over exactly the
season-filtered deliveries with `batter = bat` and `bowler = bow`:
runs is the sum of `batsman_runs`, balls the row count, dismissals the
count of rows with `player_dismissed = bat`, fours/sixes the counts of
rows with `batsman_runs = 4` / `= 6`; an empty matchup yields the
"no data" state (`none`), not an error. -/
theorem pvp_stats_spec (ms : List Match) (ds : List Delivery) (s : Nat)
    (bat bow : String) :
    (pvp_df (season_deliveries ms ds s) bat bow = [] →
      pvp ms ds s bat bow = none) ∧
    (pvp_df (season_deliveries ms ds s) bat bow ≠ [] →
      ∃ r, pvp ms ds s bat bow = some r ∧
        (∀ d, d ∈ pvp_df (season_deliveries ms ds s) bat bow ↔
          d ∈ season_deliveries ms ds s ∧ d.batter = bat ∧ d.bowler = bow) ∧
        r.runs = ((pvp_df (season_deliveries ms ds s) bat bow).map
          Delivery.batsman_runs).sum ∧
        r.balls = (pvp_df (season_deliveries ms ds s) bat bow).length ∧
        r.dismissals = ((pvp_df (season_deliveries ms ds s) bat bow).filter
          (fun d => d.player_dismissed = some bat)).length ∧
        r.sr = strike_rate r.runs r.balls ∧
        r.fours = ((pvp_df (season_deliveries ms ds s) bat bow).filter
          (fun d => d.batsman_runs = 4)).length ∧
        r.sixes = ((pvp_df (season_deliveries ms ds s) bat bow).filter
          (fun d => d.batsman_runs = 6)).length) := by
  constructor
  · intro h
    simp [pvp, pvpStats, h]
  · intro h
    unfold pvp pvpStats
    rw [if_neg (by simpa [List.isEmpty_iff] using h)]
    refine ⟨_, rfl, ?_, rfl, rfl, rfl, rfl, ?_, ?_⟩
    · intro d
      simp [pvp_df, List.mem_filter]
    · show countKey _ 4 = _
      rw [countKey_map, filter_filter_of_imp]
      intro d hd
      simp only [decide_eq_true_eq] at hd ⊢
      simp [hd]
    · show countKey _ 6 = _
      rw [countKey_map, filter_filter_of_imp]
      intro d hd
      simp only [decide_eq_true_eq] at hd ⊢
      simp [hd]

/-- Witness for **C6**: the scenario with season-2020 deliveries
`[(A,B,runs=1),(A,B,runs=4)]` gives runs 5, balls 2, strike rate 250,
one four and no six. -/
theorem pvp_stats_spec_witness :
    pvp_df (season_deliveries c6Matches c6Deliveries 2020) "A" "B" ≠ [] ∧
    pvp c6Matches c6Deliveries 2020 "A" "B" = some ⟨5, 2, 0, 250, 1, 0⟩ ∧
    (∃ r, pvp c6Matches c6Deliveries 2020 "A" "B" = some r ∧
      (∀ d, d ∈ pvp_df (season_deliveries c6Matches c6Deliveries 2020) "A" "B" ↔
        d ∈ season_deliveries c6Matches c6Deliveries 2020 ∧
          d.batter = "A" ∧ d.bowler = "B") ∧
      r.runs = ((pvp_df (season_deliveries c6Matches c6Deliveries 2020) "A" "B").map
        Delivery.batsman_runs).sum ∧
      r.balls = (pvp_df (season_deliveries c6Matches c6Deliveries 2020) "A" "B").length ∧
      r.dismissals = ((pvp_df (season_deliveries c6Matches c6Deliveries 2020) "A" "B").filter
        (fun d => d.player_dismissed = some "A")).length ∧
      r.sr = strike_rate r.runs r.balls ∧
      r.fours = ((pvp_df (season_deliveries c6Matches c6Deliveries 2020) "A" "B").filter
        (fun d => d.batsman_runs = 4)).length ∧
      r.sixes = ((pvp_df (season_deliveries c6Matches c6Deliveries 2020) "A" "B").filter
        (fun d => d.batsman_runs = 6)).length) :=
  ⟨by decide, by decide,
    (pvp_stats_spec c6Matches c6Deliveries 2020 "A" "B").2 (by decide)⟩

end IPL
